import Mathlib

/-!
Verification of pkg/jms-sdk-go/service/url.go.

The file declares the URL path templates the terminal component uses to talk
to the core service, as eleven `const` blocks of string constants.  Every
constant is embedded below under its own name and with its own value, and
`urlConstants` lists them in declaration order.  The Endpoint Catalog of the
specification (`resolve`, `format`) is not part of the file and is modelled
from the specification on top of these constants.
-/

namespace Service

/-! ## The constants of url.go, block by block -/

-- const block 1 (lines 4-9)
def UserProfileURL : String := "/api/v1/users/profile/"
def TerminalRegisterURL : String := "/api/v1/terminal/terminal-registrations/"
def TerminalConfigURL : String := "/api/v1/terminal/terminals/config/"
def TerminalHeartBeatURL : String := "/api/v1/terminal/terminals/status/"

-- const block 2 (lines 12-18)
def TokenAssetURL : String := "/api/v1/authentication/connection-token/%s/"
def UserTokenAuthURL : String := "/api/v1/authentication/tokens/"
def UserConfirmAuthURL : String := "/api/v1/authentication/login-confirm-ticket/status/"
def AuthMFASelectURL : String := "/api/v1/authentication/mfa/select/"

-- const block 3 (lines 21-29)
def SessionListURL : String := "/api/v1/terminal/sessions/"
def SessionDetailURL : String := "/api/v1/terminal/sessions/%s/"
def SessionReplayURL : String := "/api/v1/terminal/sessions/%s/replay/"
def SessionCommandURL : String := "/api/v1/terminal/commands/"
def FinishTaskURL : String := "/api/v1/terminal/tasks/%s/"
def JoinRoomValidateURL : String := "/api/v1/terminal/sessions/join/validate/"
def FTPLogListURL : String := "/api/v1/audits/ftp-logs/"

-- const block 4 (lines 32-36)
def UserPermsNodesListURL : String := "/api/v1/perms/users/%s/nodes/"
def UserPermsNodeAssetsListURL : String := "/api/v1/perms/users/%s/nodes/%s/assets/"
def UserPermsNodeTreeWithAssetURL : String :=
  "/api/v1/perms/users/%s/nodes/children-with-assets/tree/"

-- const block 5 (lines 39-50)
def UserListURL : String := "/api/v1/users/users/"
def UserDetailURL : String := "/api/v1/users/users/%s/"
def AssetDetailURL : String := "/api/v1/assets/assets/%s/"
def AssetPlatFormURL : String := "/api/v1/assets/assets/%s/platform/"
def SystemUserCmdFilterRulesListURL : String :=
  "/api/v1/assets/system-users/%s/cmd-filter-rules/"
def CommandFilterRulesListURL : String := "/api/v1/assets/cmd-filter-rules/"
def DomainDetailWithGateways : String := "/api/v1/assets/domains/%s/?gateway=1"

-- const block 6 (lines 52-54)
def NotificationCommandURL : String := "/api/v1/terminal/commands/insecure-command/"

-- const block 7 (lines 58-60)
def CommandConfirmURL : String := "/api/v1/assets/cmd-filters/command-confirm/"

-- const block 8 (lines 62-66)
def ShareCreateURL : String := "/api/v1/terminal/session-sharings/"
def ShareSessionJoinURL : String := "/api/v1/terminal/session-join-records/"
def ShareSessionFinishURL : String := "/api/v1/terminal/session-join-records/%s/finished/"

-- const block 9 (lines 68-70)
def PublicSettingURL : String := "/api/v1/settings/public/"

-- const block 10 (lines 72-74)
def TicketSessionURL : String := "/api/v1/tickets/ticket-session-relation/"

-- const block 11 (lines 76-85)
def ConnectTokenInfoURL : String := "/api/v1/authentication/connection-token/secret/"
def SuperConnectTokenInfoURL : String := "/api/v1/authentication/super-connection-token/"
def UserPermsAssetAccountsURL : String := "/api/v1/perms/users/%s/assets/%s/accounts/"
def AccountSecretURL : String := "/api/v1/assets/account-secrets/%s/"
def UserPermsAssetsURL : String := "/api/v1/perms/users/%s/assets/"
def AssetLoginConfirmURL : String := "/api/v1/acls/login-asset/check/"

/-- Every constant url.go declares, in declaration order, as the pair of the
name it is declared under and its value. -/
def urlConstants : List (String × String) :=
  [ ("UserProfileURL", UserProfileURL),
    ("TerminalRegisterURL", TerminalRegisterURL),
    ("TerminalConfigURL", TerminalConfigURL),
    ("TerminalHeartBeatURL", TerminalHeartBeatURL),
    ("TokenAssetURL", TokenAssetURL),
    ("UserTokenAuthURL", UserTokenAuthURL),
    ("UserConfirmAuthURL", UserConfirmAuthURL),
    ("AuthMFASelectURL", AuthMFASelectURL),
    ("SessionListURL", SessionListURL),
    ("SessionDetailURL", SessionDetailURL),
    ("SessionReplayURL", SessionReplayURL),
    ("SessionCommandURL", SessionCommandURL),
    ("FinishTaskURL", FinishTaskURL),
    ("JoinRoomValidateURL", JoinRoomValidateURL),
    ("FTPLogListURL", FTPLogListURL),
    ("UserPermsNodesListURL", UserPermsNodesListURL),
    ("UserPermsNodeAssetsListURL", UserPermsNodeAssetsListURL),
    ("UserPermsNodeTreeWithAssetURL", UserPermsNodeTreeWithAssetURL),
    ("UserListURL", UserListURL),
    ("UserDetailURL", UserDetailURL),
    ("AssetDetailURL", AssetDetailURL),
    ("AssetPlatFormURL", AssetPlatFormURL),
    ("SystemUserCmdFilterRulesListURL", SystemUserCmdFilterRulesListURL),
    ("CommandFilterRulesListURL", CommandFilterRulesListURL),
    ("DomainDetailWithGateways", DomainDetailWithGateways),
    ("NotificationCommandURL", NotificationCommandURL),
    ("CommandConfirmURL", CommandConfirmURL),
    ("ShareCreateURL", ShareCreateURL),
    ("ShareSessionJoinURL", ShareSessionJoinURL),
    ("ShareSessionFinishURL", ShareSessionFinishURL),
    ("PublicSettingURL", PublicSettingURL),
    ("TicketSessionURL", TicketSessionURL),
    ("ConnectTokenInfoURL", ConnectTokenInfoURL),
    ("SuperConnectTokenInfoURL", SuperConnectTokenInfoURL),
    ("UserPermsAssetAccountsURL", UserPermsAssetAccountsURL),
    ("AccountSecretURL", AccountSecretURL),
    ("UserPermsAssetsURL", UserPermsAssetsURL),
    ("AssetLoginConfirmURL", AssetLoginConfirmURL) ]

/-! ## Reading a template -/

/-- Whether the characters `p` occur somewhere in `t`. -/
def occursIn (p : List Char) : List Char → Bool
  | [] => p.isPrefixOf []
  | c :: t => p.isPrefixOf (c :: t) || occursIn p t

/-- The number of `%s` verbs of a template, read left to right. -/
def placeholderCount : List Char → Nat
  | [] => 0
  | '%' :: 's' :: rest => placeholderCount rest + 1
  | _ :: rest => placeholderCount rest

/-- Whether every `%` of a template is the start of a `%s` verb. -/
def onlyStringVerbs : List Char → Bool
  | [] => true
  | '%' :: 's' :: rest => onlyStringVerbs rest
  | '%' :: _ => false
  | _ :: rest => onlyStringVerbs rest

/-! ## The table of specification section 6 -/

/-- One row of the table of specification section 6. -/
structure SpecRow where
  group : String
  id : String
  template : String
deriving DecidableEq

/-- The table of specification section 6, row by row as the specification
lists it; the placeholders are the table's own, `\x7b0\x7d` and `\x7b1\x7d`. -/
def specTable : List SpecRow :=
  [ ⟨"identity", "UserProfile", "/api/v1/users/profile/"⟩,
    ⟨"identity", "TerminalRegister", "/api/v1/terminal/terminal-registrations/"⟩,
    ⟨"identity", "TerminalConfig", "/api/v1/terminal/terminals/config/"⟩,
    ⟨"identity", "TerminalHeartBeat", "/api/v1/terminal/terminals/status/"⟩,
    ⟨"auth", "TokenAsset", "/api/v1/authentication/connection-token/\x7b0\x7d/"⟩,
    ⟨"auth", "UserTokenAuth", "/api/v1/authentication/tokens/"⟩,
    ⟨"auth", "UserConfirmAuth", "/api/v1/authentication/login-confirm-ticket/status/"⟩,
    ⟨"auth", "AuthMFASelect", "/api/v1/authentication/mfa/select/"⟩,
    ⟨"auth", "ConnectTokenInfo", "/api/v1/authentication/connection-token/secret/"⟩,
    ⟨"auth", "SuperConnectTokenInfo", "/api/v1/authentication/super-connection-token/"⟩,
    ⟨"session", "SessionList", "/api/v1/terminal/sessions/"⟩,
    ⟨"session", "SessionDetail", "/api/v1/terminal/sessions/\x7b0\x7d/"⟩,
    ⟨"session", "SessionReplay", "/api/v1/terminal/sessions/\x7b0\x7d/replay/"⟩,
    ⟨"session", "SessionCommand", "/api/v1/terminal/commands/"⟩,
    ⟨"session", "FinishTask", "/api/v1/terminal/tasks/\x7b0\x7d/"⟩,
    ⟨"session", "JoinRoomValidate", "/api/v1/terminal/sessions/join/validate/"⟩,
    ⟨"audit", "FTPLogList", "/api/v1/audits/ftp-logs/"⟩,
    ⟨"permission", "UserPermsNodesList", "/api/v1/perms/users/\x7b0\x7d/nodes/"⟩,
    ⟨"permission", "UserPermsNodeAssetsList",
      "/api/v1/perms/users/\x7b0\x7d/nodes/\x7b1\x7d/assets/"⟩,
    ⟨"permission", "UserPermsNodeTreeWithAsset",
      "/api/v1/perms/users/nodes/children-with-assets/tree/"⟩,
    ⟨"permission", "UserPermsAssetAccounts",
      "/api/v1/perms/users/\x7b0\x7d/assets/\x7b1\x7d/accounts/"⟩,
    ⟨"permission", "UserPermsAssets", "/api/v1/perms/users/\x7b0\x7d/assets/"⟩,
    ⟨"resource", "UserList", "/api/v1/users/users/"⟩,
    ⟨"resource", "UserDetail", "/api/v1/users/users/\x7b0\x7d/"⟩,
    ⟨"resource", "AssetDetail", "/api/v1/assets/assets/\x7b0\x7d/"⟩,
    ⟨"resource", "AssetPlatform", "/api/v1/assets/assets/\x7b0\x7d/platform/"⟩,
    ⟨"resource", "SystemUserCmdFilterRulesList",
      "/api/v1/assets/system-users/\x7b0\x7d/cmd-filter-rules/"⟩,
    ⟨"resource", "CommandFilterRulesList", "/api/v1/assets/cmd-filter-rules/"⟩,
    ⟨"resource", "DomainDetailWithGateways", "/api/v1/assets/domains/\x7b0\x7d/?gateway=1"⟩,
    ⟨"resource", "AccountSecret", "/api/v1/assets/account-secrets/\x7b0\x7d/"⟩,
    ⟨"audit", "NotificationCommand", "/api/v1/terminal/commands/insecure-command/"⟩,
    ⟨"audit", "CommandConfirm", "/api/v1/assets/cmd-filters/command-confirm/"⟩,
    ⟨"sharing", "ShareCreate", "/api/v1/terminal/session-sharings/"⟩,
    ⟨"sharing", "ShareSessionJoin", "/api/v1/terminal/session-join-records/"⟩,
    ⟨"sharing", "ShareSessionFinish",
      "/api/v1/terminal/session-join-records/\x7b0\x7d/finished/"⟩,
    ⟨"settings", "PublicSetting", "/api/v1/settings/public/"⟩,
    ⟨"ticket", "TicketSession", "/api/v1/tickets/ticket-session-relation/"⟩,
    ⟨"security", "AssetLoginConfirm", "/api/v1/acls/login-asset/check/"⟩ ]

/-- The name url.go declares the constant of a table identifier under: the
identifier followed by `URL`, except `DomainDetailWithGateways`, declared
without the suffix, and `AssetPlatform`, declared as `AssetPlatFormURL`. -/
def constantName (id : String) : String :=
  if id = "DomainDetailWithGateways" then "DomainDetailWithGateways"
  else if id = "AssetPlatform" then "AssetPlatFormURL"
  else id ++ "URL"

/-- The value of the constant url.go declares under `name`, if there is one. -/
def constantValue (name : String) : Option String :=
  urlConstants.lookup name

/-- A table template with each positional placeholder `\x7b0\x7d`, `\x7b1\x7d`
written as the `%s` verb, left to right. -/
def writeVerbs : List Char → List Char
  | [] => []
  | '\x7b' :: '0' :: '\x7d' :: rest => '%' :: 's' :: writeVerbs rest
  | '\x7b' :: '1' :: '\x7d' :: rest => '%' :: 's' :: writeVerbs rest
  | c :: rest => c :: writeVerbs rest

/-- The template a table row lists, in the notation of url.go. -/
def SpecRow.asTemplate (r : SpecRow) : String :=
  String.mk (writeVerbs r.template.toList)

/-! ## The Endpoint Catalog -/

/-- The two failures of the Endpoint Catalog (specification section 7). -/
inductive CatalogError where
  | UnknownEndpoint
  | ArityMismatch
deriving DecidableEq

deriving instance DecidableEq for Except

/-- Modelled from the spec: the catalog table behind `resolve` and `format`,
which url.go does not contain (it declares the constants only).  The
registered identifiers are the identifiers of the table of section 6, and each
is bound to the value of the constant url.go declares for it. -/
def catalog : List (String × String) :=
  specTable.filterMap fun r => (constantValue (constantName r.id)).map fun v => (r.id, v)

/-- The identifiers registered in the catalog. -/
def registered : List String :=
  catalog.map Prod.fst

/-- Modelled from the spec: `resolve(id)` of section 4.1, absent from url.go.
Looks the template of an identifier up and fails with `UnknownEndpoint` for an
identifier that is not registered. -/
def resolve (id : String) : Except CatalogError String :=
  match catalog.lookup id with
  | some t => .ok t
  | none => .error .UnknownEndpoint

/-- Modelled from the spec: the substitution step of `format`, absent from
url.go.  One pass over the template, left to right: each `%s` verb is replaced
by the next value, inserted as it is; all other text is copied. -/
def substitute : List Char → List String → List Char
  | [], _ => []
  | '%' :: 's' :: rest, v :: vs => v.toList ++ substitute rest vs
  | c :: rest, vs => c :: substitute rest vs

/-- Modelled from the spec: `format(id, values...)` of section 4.1, absent from
url.go.  Resolves the template, fails with `UnknownEndpoint` for an identifier
that is not registered and with `ArityMismatch` when the number of values is
not the number of placeholders of the template, and otherwise substitutes the
values in order of appearance. -/
def format (id : String) (values : List String) : Except CatalogError String :=
  match resolve id with
  | .error e => .error e
  | .ok t =>
    if values.length = placeholderCount t.toList then
      .ok (String.mk (substitute t.toList values))
    else
      .error .ArityMismatch

/-! ## Shared facts -/

theorem resolve_unknown_iff (id : String) :
    resolve id = .error .UnknownEndpoint ↔ id ∉ registered := by
  unfold resolve registered
  cases h : catalog.lookup id with
  | none =>
    simp only [true_iff]
    intro hmem
    obtain ⟨p, hp, rfl⟩ := List.mem_map.1 hmem
    have := List.lookup_eq_none_iff.1 h p hp
    simp at this
  | some t =>
    simp only [reduceCtorEq, false_iff, not_not]
    have hs : (catalog.lookup id).isSome = true := by rw [h]; rfl
    obtain ⟨p, hp, hk⟩ := List.lookup_isSome_iff.1 hs
    have hid : id = p.1 := by simpa using hk
    exact List.mem_map.2 ⟨p, hp, hid.symm⟩

theorem resolve_registered (id : String) (h : id ∈ registered) :
    ∃ t, resolve id = .ok t := by
  cases hr : resolve id with
  | ok t => exact ⟨t, rfl⟩
  | error e =>
    cases e with
    | UnknownEndpoint => exact absurd h ((resolve_unknown_iff id).1 hr)
    | ArityMismatch =>
      unfold resolve at hr
      split at hr <;> simp at hr

theorem format_of_resolve (id t : String) (values : List String) (h : resolve id = .ok t) :
    format id values =
      if values.length = placeholderCount t.toList then
        .ok (String.mk (substitute t.toList values))
      else .error .ArityMismatch := by
  unfold format
  rw [h]

/-! ## C1 - C2: the table against the constants -/

/-- C1, as stated, fails: the row `UserPermsNodeTreeWithAsset` of the table
lists a template without a placeholder, and the constant url.go declares for it
has one, so not every row's template equals its constant. -/
theorem table_row_differs_from_constant :
    ¬ ∀ r ∈ specTable, constantValue (constantName r.id) = some r.asTemplate := by
  intro h
  have h1 := h ⟨"permission", "UserPermsNodeTreeWithAsset",
    "/api/v1/perms/users/nodes/children-with-assets/tree/"⟩ (by decide)
  revert h1
  decide

/-- C1 (amended): for every row of the table of section 6 other than
`UserPermsNodeTreeWithAsset`, url.go declares a constant under the row's name
and its value is the row's template, character for character, with the
placeholders written as `%s`; the constant of `UserPermsNodeTreeWithAsset` is
`/api/v1/perms/users/%s/nodes/children-with-assets/tree/`. -/
theorem table_templates_match_constants (r : SpecRow) (hr : r ∈ specTable)
    (hne : r.id ≠ "UserPermsNodeTreeWithAsset") :
    constantValue (constantName r.id) = some r.asTemplate ∧
    constantValue (constantName "UserPermsNodeTreeWithAsset") =
      some "/api/v1/perms/users/%s/nodes/children-with-assets/tree/" := by
  revert r
  decide

/-- Witness of C1 at the row `UserPermsNodeAssetsList`, the row with two
placeholders. -/
theorem table_templates_match_constants_witness :
    constantValue (constantName "UserPermsNodeAssetsList") =
      some "/api/v1/perms/users/%s/nodes/%s/assets/" ∧
    constantValue (constantName "UserPermsNodeTreeWithAsset") =
      some "/api/v1/perms/users/%s/nodes/children-with-assets/tree/" := by
  have h := table_templates_match_constants
    ⟨"permission", "UserPermsNodeAssetsList",
      "/api/v1/perms/users/\x7b0\x7d/nodes/\x7b1\x7d/assets/"⟩ (by decide) (by decide)
  refine ⟨?_, h.2⟩
  rw [h.1]
  decide

/-- C2, as stated, fails: the constant `UserPermsNodeTreeWithAssetURL` is not
the path without a slot, and its number of `%s` slots is not zero. -/
theorem nodeTree_is_not_slotless :
    ¬ (UserPermsNodeTreeWithAssetURL = "/api/v1/perms/users/nodes/children-with-assets/tree/" ∧
       placeholderCount UserPermsNodeTreeWithAssetURL.toList = 0) := by
  decide

/-- C2 (amended): the constant `UserPermsNodeTreeWithAssetURL` equals
`/api/v1/perms/users/%s/nodes/children-with-assets/tree/`; it contains the
`%s` verb, exactly once, right after `/api/v1/perms/users/`. -/
theorem nodeTree_has_one_slot :
    UserPermsNodeTreeWithAssetURL = "/api/v1/perms/users/%s/nodes/children-with-assets/tree/" ∧
    occursIn "%s".toList UserPermsNodeTreeWithAssetURL.toList = true ∧
    placeholderCount UserPermsNodeTreeWithAssetURL.toList = 1 ∧
    "/api/v1/perms/users/%s/".toList.isPrefixOf UserPermsNodeTreeWithAssetURL.toList = true := by
  decide

/-! ## C3 - C5: resolve and format -/

/-- C3: formatting is positional and textual.  For all strings `u` and `n`,
`format` of `UserPermsNodeAssetsList` with the values `u`, `n` is
`/api/v1/perms/users/` followed by `u`, `/nodes/`, `n` and `/assets/`, the
values inserted unchanged; with `u1` and `n1` it is
`/api/v1/perms/users/u1/nodes/n1/assets/`. -/
theorem format_nodeAssetsList :
    (∀ u n : String, format "UserPermsNodeAssetsList" [u, n] =
      .ok ("/api/v1/perms/users/" ++ u ++ "/nodes/" ++ n ++ "/assets/")) ∧
    format "UserPermsNodeAssetsList" ["u1", "n1"] =
      .ok "/api/v1/perms/users/u1/nodes/n1/assets/" := by
  have hr : resolve "UserPermsNodeAssetsList" = .ok UserPermsNodeAssetsListURL := by decide
  have hc : placeholderCount UserPermsNodeAssetsListURL.toList = 2 := by decide
  refine ⟨fun u n => ?_, by decide⟩
  rw [format_of_resolve _ _ _ hr, hc]
  simp only [List.length_cons, List.length_nil, if_true]
  congr 1
  apply String.ext
  simp [substitute, UserPermsNodeAssetsListURL]

/-- C4: for every registered identifier and every list of values, `format`
fails with `ArityMismatch` exactly when the number of values differs from the
number of placeholders of the identifier's template, and returns the
substituted path otherwise; `SessionDetail` has one placeholder, so `format` of
it with no value fails with `ArityMismatch`. -/
theorem format_arityMismatch_iff (id : String) (hid : id ∈ registered)
    (values : List String) :
    (∃ t, resolve id = .ok t ∧
      (format id values = .error .ArityMismatch ↔
        values.length ≠ placeholderCount t.toList) ∧
      (values.length = placeholderCount t.toList →
        format id values = .ok (String.mk (substitute t.toList values)))) ∧
    resolve "SessionDetail" = .ok SessionDetailURL ∧
    placeholderCount SessionDetailURL.toList = 1 ∧
    format "SessionDetail" [] = .error .ArityMismatch := by
  refine ⟨?_, by decide, by decide, by decide⟩
  obtain ⟨t, ht⟩ := resolve_registered id hid
  refine ⟨t, ht, ?_, ?_⟩
  · rw [format_of_resolve _ _ _ ht]
    by_cases hl : values.length = placeholderCount t.toList
    · simp [hl]
    · simp [hl]
  · intro hl
    rw [format_of_resolve _ _ _ ht, if_pos hl]

/-- Witness of C4 at `UserPermsAssetAccounts` with the one value `u1`: the
template has two placeholders and the call fails with `ArityMismatch`. -/
theorem format_arityMismatch_iff_witness :
    "UserPermsAssetAccounts" ∈ registered ∧
    format "UserPermsAssetAccounts" ["u1"] = .error .ArityMismatch := by
  obtain ⟨⟨t, ht, hiff, _⟩, _⟩ :=
    format_arityMismatch_iff "UserPermsAssetAccounts" (by decide) ["u1"]
  have hr : resolve "UserPermsAssetAccounts" = .ok UserPermsAssetAccountsURL := by decide
  have ht2 : t = UserPermsAssetAccountsURL := by
    rw [hr] at ht
    exact (Except.ok.inj ht).symm
  subst ht2
  exact ⟨by decide, hiff.2 (by decide)⟩

/-- C5: `resolve` and `format` fail with `UnknownEndpoint` exactly for the
identifiers that are not registered; both fail so for `DoesNotExist`; and every
one of the 38 constants of url.go is what `resolve` returns for the registered
identifier it is declared for. -/
theorem unknownEndpoint_iff_unregistered :
    (∀ id, resolve id = .error .UnknownEndpoint ↔ id ∉ registered) ∧
    (∀ id values, format id values = .error .UnknownEndpoint ↔ id ∉ registered) ∧
    resolve "DoesNotExist" = .error .UnknownEndpoint ∧
    (∀ values, format "DoesNotExist" values = .error .UnknownEndpoint) ∧
    registered = specTable.map SpecRow.id ∧
    urlConstants.length = 38 ∧
    (∀ c ∈ urlConstants, ∃ id ∈ registered,
      constantName id = c.1 ∧ resolve id = .ok c.2) := by
  have hf : ∀ id values, format id values = .error .UnknownEndpoint ↔ id ∉ registered := by
    intro id values
    constructor
    · intro h hmem
      obtain ⟨t, ht⟩ := resolve_registered id hmem
      rw [format_of_resolve _ _ _ ht] at h
      split at h <;> simp at h
    · intro h
      have hr := (resolve_unknown_iff id).2 h
      unfold format
      rw [hr]
  refine ⟨resolve_unknown_iff, hf, by decide, ?_, by decide, by decide, by decide⟩
  intro values
  exact (hf _ values).2 (by decide)

/-- Witness of C5 at the constant `AssetPlatFormURL`, whose registered
identifier is spelled `AssetPlatform`, and at the unregistered `DoesNotExist`. -/
theorem unknownEndpoint_iff_unregistered_witness :
    resolve "AssetPlatform" = .ok "/api/v1/assets/assets/%s/platform/" ∧
    format "DoesNotExist" ["x"] = .error .UnknownEndpoint := by
  obtain ⟨_, _, _, hfmt, _, _, hall⟩ := unknownEndpoint_iff_unregistered
  obtain ⟨id, hid, hname, hres⟩ := hall ("AssetPlatFormURL", AssetPlatFormURL) (by decide)
  have hid2 : id = "AssetPlatform" := by
    revert id
    decide
  subst hid2
  exact ⟨hres, hfmt ["x"]⟩

/-! ## C6 - C10: the shape of the constants -/

/-- C6: every constant of url.go is a relative path: it starts with `/`, in
fact with `/api/v1/`, it does not start with `//`, and `://` occurs nowhere in
it. -/
theorem templates_are_relative_paths (c : String × String) (hc : c ∈ urlConstants) :
    c.2.toList.head? = some '/' ∧
    "/api/v1/".toList.isPrefixOf c.2.toList = true ∧
    "//".toList.isPrefixOf c.2.toList = false ∧
    occursIn "://".toList c.2.toList = false := by
  revert c
  decide

/-- Witness of C6 at the one constant that carries a query string. -/
theorem templates_are_relative_paths_witness :
    ("DomainDetailWithGateways", "/api/v1/assets/domains/%s/?gateway=1") ∈ urlConstants ∧
    "/api/v1/".toList.isPrefixOf "/api/v1/assets/domains/%s/?gateway=1".toList = true ∧
    occursIn "://".toList "/api/v1/assets/domains/%s/?gateway=1".toList = false := by
  have h := templates_are_relative_paths
    ("DomainDetailWithGateways", "/api/v1/assets/domains/%s/?gateway=1") (by decide)
  exact ⟨by decide, h.2.1, h.2.2.2⟩

/-- C7: url.go declares 38 constants under pairwise distinct names, the table
of section 6 has 38 rows with pairwise distinct identifiers, every row has its
constant in url.go, and every constant of url.go is the constant of a row. -/
theorem constants_match_table_rows :
    urlConstants.length = 38 ∧
    (urlConstants.map Prod.fst).Nodup ∧
    specTable.length = 38 ∧
    (specTable.map SpecRow.id).Nodup ∧
    (∀ r ∈ specTable, constantName r.id ∈ urlConstants.map Prod.fst) ∧
    (∀ c ∈ urlConstants, ∃ r ∈ specTable, constantName r.id = c.1) := by
  decide

/-- Witness of C7 at the two rows whose constants are not named by appending
`URL` to the identifier. -/
theorem constants_match_table_rows_witness :
    "AssetPlatFormURL" ∈ urlConstants.map Prod.fst ∧
    "DomainDetailWithGateways" ∈ urlConstants.map Prod.fst := by
  obtain ⟨_, _, _, _, hrows, _⟩ := constants_match_table_rows
  exact ⟨hrows ⟨"resource", "AssetPlatform", "/api/v1/assets/assets/\x7b0\x7d/platform/"⟩
      (by decide),
    hrows ⟨"resource", "DomainDetailWithGateways",
      "/api/v1/assets/domains/\x7b0\x7d/?gateway=1"⟩ (by decide)⟩

/-- C8: every constant of url.go ends with `/` and contains no `?`, except
`DomainDetailWithGateways`, which contains `?`, ends with `/?gateway=1`, and
whose part before the `?` ends with `/`. -/
theorem trailing_slashes (c : String × String) (hc : c ∈ urlConstants) :
    (c.1 ≠ "DomainDetailWithGateways" →
      "/".toList.isSuffixOf c.2.toList = true ∧ c.2.toList.contains '?' = false) ∧
    (c.1 = "DomainDetailWithGateways" →
      c.2.toList.contains '?' = true ∧
      "/".toList.isSuffixOf c.2.toList = false ∧
      "/?gateway=1".toList.isSuffixOf c.2.toList = true ∧
      "/".toList.isSuffixOf (c.2.toList.takeWhile fun x => x != '?') = true) := by
  revert c
  decide

/-- Witness of C8 at `DomainDetailWithGateways`. -/
theorem trailing_slashes_witness :
    ("DomainDetailWithGateways", DomainDetailWithGateways) ∈ urlConstants ∧
    DomainDetailWithGateways.toList.contains '?' = true ∧
    "/?gateway=1".toList.isSuffixOf DomainDetailWithGateways.toList = true := by
  have h := (trailing_slashes ("DomainDetailWithGateways", DomainDetailWithGateways)
    (by decide)).2 rfl
  exact ⟨by decide, h.1, h.2.2.1⟩

/-- C9: in every constant of url.go each `%` is followed by `s`; no constant
has more than two `%s` slots, and the constants with exactly two are
`UserPermsNodeAssetsListURL` and `UserPermsAssetAccountsURL`. -/
theorem only_string_verbs (c : String × String) (hc : c ∈ urlConstants) :
    onlyStringVerbs c.2.toList = true ∧
    placeholderCount c.2.toList ≤ 2 ∧
    (placeholderCount c.2.toList = 2 ↔
      c.1 = "UserPermsNodeAssetsListURL" ∨ c.1 = "UserPermsAssetAccountsURL") := by
  revert c
  decide

/-- Witness of C9 at `UserPermsAssetAccountsURL`, one of the two constants
with two slots. -/
theorem only_string_verbs_witness :
    ("UserPermsAssetAccountsURL", UserPermsAssetAccountsURL) ∈ urlConstants ∧
    onlyStringVerbs UserPermsAssetAccountsURL.toList = true ∧
    placeholderCount UserPermsAssetAccountsURL.toList = 2 := by
  have h := only_string_verbs ("UserPermsAssetAccountsURL", UserPermsAssetAccountsURL)
    (by decide)
  exact ⟨by decide, h.1, h.2.2.2 (Or.inr rfl)⟩

/-- C10: two constants of url.go declared under different names have different
values. -/
theorem templates_injective (a b : String × String) (ha : a ∈ urlConstants)
    (hb : b ∈ urlConstants) (hne : a.1 ≠ b.1) : a.2 ≠ b.2 := by
  have hnd : (urlConstants.map Prod.snd).Nodup := by decide
  intro h
  exact hne (congrArg Prod.fst (List.inj_on_of_nodup_map hnd ha hb h))

/-- Witness of C10 at two session constants that differ in their last segment
only. -/
theorem templates_injective_witness :
    SessionDetailURL ≠ SessionReplayURL :=
  templates_injective ("SessionDetailURL", SessionDetailURL)
    ("SessionReplayURL", SessionReplayURL) (by decide) (by decide) (by decide)

end Service
